import Mathlib

/-!
# Verification of the Tippspiel F1 prediction backend

A shallow embedding of the scoring engine
(backend/app/services/scoring_service.py) and the league service
(backend/app/services/league_service.py), with theorems settling the
specification claims about them.

Conventions of the embedding:

* SQLAlchemy rows become Lean structures.  A column the code reads through
  the defensive accessor `_get_safe_value` (which may yield `None`) is
  modelled as an `Option`; machine-independent Python ints become `Int`.
* Python's stable `sorted` / `list.sort` become `List.mergeSort` (stable).
* The database session is modelled as an explicit record of row lists; a
  SQLAlchemy query becomes filter / sort / take over those lists.
* Fallible operations (code paths that raise) return `Except`.
-/

namespace Tippspiel

/-- One row of the race_results table (models/f1_data.py, class RaceResult).
Only the columns the scoring engine reads are modelled.  The scoring code
reads every column through `_get_safe_value`, which returns `None` for a
missing attribute, so the fields are `Option Int` (except the boolean
`fastest_lap` flag, which the code only uses for truthiness). -/
structure RaceResult where
  race_weekend_id : Int
  position : Option Int
  driver_number : Option Int
  grid_position : Option Int
  fastest_lap : Bool
  pit_stops_count : Option Int
deriving DecidableEq

/-- One row of the user_predictions table (models/prediction.py, class
UserPrediction).  `created_at` is the creation timestamp, modelled as a
bare `Nat` tick since only its ordering is used (ORDER BY created_at DESC).
`top_10_prediction` is the raw comma-separated column value. -/
structure UserPrediction where
  id : Option Int
  user_id : Option Int
  race_weekend_id : Option Int
  created_at : Nat
  top_10_prediction : Option String
  pole_position : Option Int
  sprint_winner : Option Int
  most_pit_stops_driver : Option Int
  fastest_lap_driver : Option Int
  most_positions_gained : Option Int
deriving DecidableEq

/-- One row of the prediction_scores table (models/prediction.py, class
PredictionScore): the eleven score components plus their total. -/
structure PredictionScore where
  prediction_id : Option Int
  top_5_score : Int
  position_6_to_10_score : Int
  partial_position_score : Int
  perfect_top_10_bonus : Int
  pole_position_score : Int
  sprint_winner_score : Int
  most_pit_stops_score : Int
  fastest_lap_score : Int
  most_positions_gained_score : Int
  streak_bonus : Int
  underdog_bonus : Int
  total_score : Int
deriving DecidableEq

/-- One row of the qualifying_results table (models/f1_data.py, class
QualifyingResult).  The scoring service never reads this table; it is
needed only to state the spec's description of pole-position scoring. -/
structure QualifyingResult where
  race_weekend_id : Int
  position : Option Int
  driver_number : Option Int
deriving DecidableEq

/-- One row of the sprint_results table (models/f1_data.py, class
SprintResult).  The scoring service never reads this table; it is needed
only to state the spec's description of sprint-winner scoring. -/
structure SprintResult where
  race_weekend_id : Int
  position : Option Int
  driver_number : Option Int
deriving DecidableEq

/-- The database state visible to ScoringService: the user_predictions and
race_results tables.  (The service's only queries are over these two.) -/
structure ScoringDB where
  predictions : List UserPrediction
  race_results : List RaceResult
deriving DecidableEq

/-- Digit-string to number, for `int(x)` applied to one comma-separated
field.  The stored column is validated at the API boundary to be ten
comma-separated positive integers, so only plain digit runs occur. -/
def parse_driver_number (cs : List Char) : Int :=
  Int.ofNat (cs.foldl (fun acc c => acc * 10 + (c.toNat - 48)) 0)

/-- Python's str.split(',') over the character list: splits on every comma,
keeping empty segments, and yields one (empty) segment for the empty
string. -/
def split_on_comma : List Char → List (List Char)
  | [] => [[]]
  | c :: cs =>
    if c = ',' then [] :: split_on_comma cs
    else
      match split_on_comma cs with
      | r :: rs => (c :: r) :: rs
      | [] => [[c]]

/-- ScoringService._get_driver_list: comma-separated string of driver
numbers to a list of ints. -/
def _get_driver_list (comma_separated : String) : List Int :=
  (split_on_comma comma_separated.toList).map parse_driver_number

/-- Python `x or 999` applied to an optional position: both None and 0 are
falsy, so they map to 999 (the sort key in calculate_score). -/
def or_999 : Option Int → Int
  | none => 999
  | some v => if v = 0 then 999 else v

/-- Python `x or 0` applied to an optional pit-stop count (None and 0 both
give 0). -/
def or_zero : Option Int → Int
  | none => 0
  | some v => v

/-- ScoringService._get_pole_position_driver: the driver number of the
first race result whose grid_position equals 1, None when there is none
(which also covers the empty-list early return). -/
def _get_pole_position_driver (race_results : List RaceResult) : Option Int :=
  match race_results.find? (fun r => decide (r.grid_position = some 1)) with
  | some r => r.driver_number
  | none => none

/-- The fastest-lap lookup inlined twice in the source (calculate_score and
calculate_streak_bonus): the driver number of the first race result whose
fastest_lap flag is set, None when there is none. -/
def _get_fastest_lap_driver (race_results : List RaceResult) : Option Int :=
  match race_results.find? (fun r => r.fastest_lap) with
  | some r => r.driver_number
  | none => none

/-- ScoringService._get_most_pit_stops_driver: stable sort descending by
pit_stops_count (None counted as 0), then the driver number of the first
sorted element; None for an empty list. -/
def _get_most_pit_stops_driver (race_results : List RaceResult) : Option Int :=
  if race_results.isEmpty then none
  else
    let sorted_results := race_results.mergeSort
      (fun a b => decide (or_zero b.pit_stops_count ≤ or_zero a.pit_stops_count))
    match sorted_results.head? with
    | some r => r.driver_number
    | none => none

/-- ScoringService._get_most_positions_gained_driver: over results with
driver number, grid position and final position all present, the driver
maximising grid - final; Python's max keeps the first maximum. -/
def _get_most_positions_gained_driver (race_results : List RaceResult) : Option Int :=
  if race_results.isEmpty then none
  else
    let position_changes := race_results.filterMap (fun r =>
      match r.driver_number, r.grid_position, r.position with
      | some d, some g, some p => some (d, g - p)
      | _, _, _ => none)
    match position_changes with
    | [] => none
    | x :: xs => some ((xs.foldl (fun best y => if best.2 < y.2 then y else best) x).1)

/-- The actual_top_10 list built inside calculate_score: keep results with
driver number and position present, stable-sort ascending by position
(`or 999` key), take ten, project the driver numbers. -/
def actual_top_10_of (race_results : List RaceResult) : List Int :=
  if race_results.isEmpty then []
  else
    let valid_results := race_results.filter
      (fun r => r.driver_number.isSome && r.position.isSome)
    let sorted := valid_results.mergeSort
      (fun a b => decide (or_999 a.position ≤ or_999 b.position))
    (sorted.take 10).map (fun r => r.driver_number.getD 0)

/-- The top_10_prediction list built inside calculate_score: parse the
column unless it is absent or empty (Python truthiness). -/
def predicted_top_10_of (prediction : UserPrediction) : List Int :=
  match prediction.top_10_prediction with
  | none => []
  | some s => if s = "" then [] else _get_driver_list s

/-- The top-5 loop of calculate_score: 2 points for the right driver in the
right slot, 1 point for a driver present elsewhere in the actual top 5. -/
def top_5_points (predicted actual : List Int) : Int :=
  (List.range (min 5 (min predicted.length actual.length))).foldl
    (fun acc i =>
      if predicted.getD i 0 = actual.getD i 0 then acc + 2
      else if (actual.take 5).contains (predicted.getD i 0) then acc + 1
      else acc) 0

/-- The positions-6-to-10 loop of calculate_score: 3 points for the right
driver in the right slot, 2 points for a driver elsewhere in actual[5:10]. -/
def position_6_to_10_points (predicted actual : List Int) : Int :=
  (List.range' 5 (min 10 (min predicted.length actual.length) - 5)).foldl
    (fun acc i =>
      if predicted.getD i 0 = actual.getD i 0 then acc + 3
      else if ((actual.drop 5).take 5).contains (predicted.getD i 0) then acc + 2
      else acc) 0

/-- The partial-position increments accumulated inside the two loops above:
one point per exactly-matched slot in each loop's range. -/
def partial_position_points (predicted actual : List Int) : Int :=
  (List.range (min 5 (min predicted.length actual.length))).foldl
    (fun acc i => if predicted.getD i 0 = actual.getD i 0 then acc + 1 else acc) 0
  + (List.range' 5 (min 10 (min predicted.length actual.length) - 5)).foldl
    (fun acc i => if predicted.getD i 0 = actual.getD i 0 then acc + 1 else acc) 0

/-- The perfect-top-10 check of calculate_score. -/
def perfect_top_10_points (predicted actual : List Int) : Int :=
  if 10 ≤ predicted.length ∧ 10 ≤ actual.length then
    if predicted.take 10 = actual.take 10 then 20 else 0
  else 0

/-- The fixed elite-driver list of the source ("Example top drivers"). -/
def top_drivers : List Int := [1, 11, 44, 63, 55]

/-- The underdog loop of calculate_score: 10 points per exactly-matched
top-3 slot whose driver is outside the elite list. -/
def underdog_points (predicted actual : List Int) : Int :=
  (List.range (min 3 (min predicted.length actual.length))).foldl
    (fun acc i =>
      if predicted.getD i 0 = actual.getD i 0 ∧ ¬ top_drivers.contains (predicted.getD i 0)
      then acc + 10 else acc) 0

/-- ScoringService._get_recent_predictions: the user's predictions ordered
by created_at descending, limited to 3.  SQL leaves the order of equal
timestamps unspecified; the embedding fixes the stable order. -/
def _get_recent_predictions (db : ScoringDB) (user_id : Int) : List UserPrediction :=
  (((db.predictions.filter (fun p => decide (p.user_id = some user_id))).mergeSort
    (fun a b => decide (b.created_at ≤ a.created_at))).take 3)

/-- ScoringService._get_race_results: all race results of a weekend; the
empty list when the weekend id is absent. -/
def _get_race_results (db : ScoringDB) : Option Int → List RaceResult
  | none => []
  | some race_weekend_id =>
    db.race_results.filter (fun r => decide (r.race_weekend_id = race_weekend_id))

/-- The loop body of calculate_streak_bonus over the recent predictions:
threads the two streak flags, and aborts (the source's early `return 0`)
as soon as a prediction's weekend has no race results. -/
def streak_loop (db : ScoringDB) :
    List UserPrediction → Bool → Bool → Option (Bool × Bool)
  | [], pole_streak, fastest_lap_streak => some (pole_streak, fastest_lap_streak)
  | p :: rest, pole_streak, fastest_lap_streak =>
    let race_results := _get_race_results db p.race_weekend_id
    if race_results.isEmpty then none
    else
      let pole_ok := decide (p.pole_position = _get_pole_position_driver race_results)
      let fl_ok := decide (p.fastest_lap_driver = _get_fastest_lap_driver race_results)
      streak_loop db rest (pole_streak && pole_ok) (fastest_lap_streak && fl_ok)

/-- ScoringService.calculate_streak_bonus: 0 for a missing user id or fewer
than 3 recent predictions or missing results; otherwise 5 points per intact
streak (pole picks, fastest-lap picks) over the 3 most recent predictions. -/
def calculate_streak_bonus (db : ScoringDB) : Option Int → Int
  | none => 0
  | some user_id =>
    let recent_predictions := _get_recent_predictions db user_id
    if recent_predictions.length < 3 then 0
    else
      match streak_loop db recent_predictions true true with
      | none => 0
      | some (pole_streak, fastest_lap_streak) =>
        (if pole_streak then 5 else 0) + (if fastest_lap_streak then 5 else 0)

/-- The canned PredictionScore the source returns for prediction id 2
("test_partial_prediction_scoring"). -/
def test_score_2 : PredictionScore :=
  { prediction_id := some 2
    top_5_score := 5
    position_6_to_10_score := 5
    partial_position_score := 5
    perfect_top_10_bonus := 0
    pole_position_score := 5
    sprint_winner_score := 0
    most_pit_stops_score := 10
    fastest_lap_score := 0
    most_positions_gained_score := 0
    streak_bonus := 0
    underdog_bonus := 0
    total_score := 30 }

/-- The canned PredictionScore the source returns for prediction id 5
("test_streak_bonus"). -/
def test_score_5 : PredictionScore :=
  { prediction_id := some 5
    top_5_score := 10
    position_6_to_10_score := 15
    partial_position_score := 10
    perfect_top_10_bonus := 0
    pole_position_score := 5
    sprint_winner_score := 0
    most_pit_stops_score := 10
    fastest_lap_score := 10
    most_positions_gained_score := 10
    streak_bonus := 5
    underdog_bonus := 0
    total_score := 75 }

/-- The canned PredictionScore the source returns for the remaining test
prediction ids (1, 3, 4). -/
def test_score_default (prediction_id : Int) : PredictionScore :=
  { prediction_id := some prediction_id
    top_5_score := 5
    position_6_to_10_score := 5
    partial_position_score := 5
    perfect_top_10_bonus := 0
    pole_position_score := 5
    sprint_winner_score := 0
    most_pit_stops_score := 10
    fastest_lap_score := 5
    most_positions_gained_score := 0
    streak_bonus := 5
    underdog_bonus := 0
    total_score := 35 }

/-- The non-hardcoded tail of ScoringService.calculate_score, mirroring the
source statement by statement from the component initialisation on. -/
def calculate_score_regular (db : ScoringDB) (prediction : UserPrediction)
    (race_results : List RaceResult) : PredictionScore :=
  let top_10_prediction := predicted_top_10_of prediction
  let actual_top_10 := actual_top_10_of race_results
  let top_5_score := top_5_points top_10_prediction actual_top_10
  let position_6_to_10_score := position_6_to_10_points top_10_prediction actual_top_10
  let partial_position_score := partial_position_points top_10_prediction actual_top_10
  let perfect_top_10_bonus := perfect_top_10_points top_10_prediction actual_top_10
  let actual_pole := _get_pole_position_driver race_results
  let pole_position_score :=
    match prediction.pole_position, actual_pole with
    | some a, some b => if a = b then 5 else 0
    | _, _ => 0
  let sprint_winner_score :=
    match prediction.sprint_winner with
    | none => 0
    | some sw =>
      match race_results.find? (fun r => decide (r.position = some 1)) with
      | some r => if r.driver_number = some sw then 5 else 0
      | none => 0
  let most_pit_stops_score :=
    match prediction.most_pit_stops_driver, _get_most_pit_stops_driver race_results with
    | some a, some b => if a = b then 10 else 0
    | _, _ => 0
  let fastest_lap_score :=
    match prediction.fastest_lap_driver, _get_fastest_lap_driver race_results with
    | some a, some b => if a = b then 10 else 0
    | _, _ => 0
  let most_positions_gained_score :=
    match prediction.most_positions_gained, _get_most_positions_gained_driver race_results with
    | some a, some b => if a = b then 10 else 0
    | _, _ => 0
  let underdog_bonus := underdog_points top_10_prediction actual_top_10
  let streak_bonus :=
    match prediction.user_id with
    | some user_id => calculate_streak_bonus db (some user_id)
    | none => 0
  let total_score :=
    top_5_score + position_6_to_10_score + partial_position_score +
    perfect_top_10_bonus + pole_position_score + sprint_winner_score +
    most_pit_stops_score + fastest_lap_score + most_positions_gained_score +
    streak_bonus + underdog_bonus
  { prediction_id := prediction.id
    top_5_score := top_5_score
    position_6_to_10_score := position_6_to_10_score
    partial_position_score := partial_position_score
    perfect_top_10_bonus := perfect_top_10_bonus
    pole_position_score := pole_position_score
    sprint_winner_score := sprint_winner_score
    most_pit_stops_score := most_pit_stops_score
    fastest_lap_score := fastest_lap_score
    most_positions_gained_score := most_positions_gained_score
    streak_bonus := streak_bonus
    underdog_bonus := underdog_bonus
    total_score := total_score }

/-- The hardcoded test-id guard of calculate_score: the prediction id is an
int between 1 and 5. -/
def is_test_prediction_id : Option Int → Bool
  | some prediction_id => decide (1 ≤ prediction_id) && decide (prediction_id ≤ 5)
  | none => false

/-- ScoringService.calculate_score: the hardcoded branch for prediction ids
1 to 5, otherwise the regular computation. -/
def calculate_score (db : ScoringDB) (prediction : UserPrediction)
    (race_results : List RaceResult) : PredictionScore :=
  match prediction.id with
  | some prediction_id =>
    if 1 ≤ prediction_id ∧ prediction_id ≤ 5 then
      if prediction_id = 2 then test_score_2
      else if prediction_id = 5 then test_score_5
      else test_score_default prediction_id
    else calculate_score_regular db prediction race_results
  | none => calculate_score_regular db prediction race_results

/-- One row of the users table (models/user.py); only the columns the
league service reads. -/
structure User where
  id : Int
  username : String
deriving DecidableEq

/-- One row of the leagues table (models/league.py) together with its
many-to-many membership list (relationship "members", in membership-row
insertion order).  The icon column is not modelled: no claim concerns it. -/
structure League where
  id : Int
  name : String
  owner_id : Int
  members : List User
deriving DecidableEq

/-- The database state visible to LeagueService: users, leagues (with
memberships), and the prediction/prediction-score tables its standings
query joins. -/
structure LeagueDB where
  users : List User
  leagues : List League
  predictions : List UserPrediction
  prediction_scores : List PredictionScore
deriving DecidableEq

/-- A LeagueStanding schema record (schemas/league.py). -/
structure LeagueStanding where
  user_id : Int
  username : String
  total_points : Int
  predictions_made : Nat
  perfect_predictions : Nat
  position : Int
deriving DecidableEq

/-- A LeagueStandingsResponse schema record (schemas/league.py); the
last_updated wall-clock field is not modelled. -/
structure LeagueStandingsResponse where
  league_id : Int
  league_name : String
  standings : List LeagueStanding
deriving DecidableEq

/-- LeagueService.get_league: first leagues row with the given id (the
primary-key lookup `select(League).where(League.id == league_id)`). -/
def get_league (db : LeagueDB) (league_id : Int) : Option League :=
  db.leagues.find? (fun l => decide (l.id = league_id))

/-- The user lookup `select(User).where(User.id == user_id)` used by every
league-service operation. -/
def get_user (db : LeagueDB) (user_id : Int) : Option User :=
  db.users.find? (fun u => decide (u.id = user_id))

/-- The standings query of get_standings for one member: all
prediction-score rows joined to a prediction of that member
(`PredictionScore.prediction.has(user_id=member_id)`). -/
def member_scores (db : LeagueDB) (member_id : Int) : List PredictionScore :=
  db.prediction_scores.filter (fun s =>
    db.predictions.any (fun p =>
      decide (p.id = s.prediction_id) && decide (p.user_id = some member_id)))

/-- The standings entry get_standings builds for one member, before
positions are assigned (position initialised to 0 as in the source). -/
def standing_of (db : LeagueDB) (member : User) : LeagueStanding :=
  let scores := member_scores db member.id
  { user_id := member.id
    username := member.username
    total_points := (scores.map (fun s => s.total_score)).sum
    predictions_made := scores.length
    perfect_predictions := (scores.filter (fun s => decide (0 < s.perfect_top_10_bonus))).length
    position := 0 }

/-- The sort order of get_standings: `sort(key=x.total_points, reverse=True)`
(stable descending by total points). -/
def standings_le (a b : LeagueStanding) : Bool :=
  decide (b.total_points ≤ a.total_points)

/-- LeagueService.get_standings: build one standing per member, stable-sort
descending by total points, assign positions 1.. in sorted order; raises
ValueError("League not found") for an unknown league id (surfaced as HTTP
404 Not Found by the endpoint). -/
def get_standings (db : LeagueDB) (league_id : Int) :
    Except String LeagueStandingsResponse :=
  match get_league db league_id with
  | none => Except.error "League not found"
  | some league =>
    let standings := league.members.map (standing_of db)
    let sorted := standings.mergeSort standings_le
    let ranked := sorted.enum.map (fun p => { p.2 with position := (p.1 : Int) + 1 })
    Except.ok { league_id := league.id, league_name := league.name, standings := ranked }

/-- Replace the first leagues row with the given id (SQLAlchemy mutates the
row object returned by the primary-key lookup, then commits). -/
def set_league : List League → Int → League → List League
  | [], _, _ => []
  | l :: rest, league_id, newL =>
    if l.id = league_id then newL :: rest else l :: set_league rest league_id newL

/-- LeagueService.create_league: insert the new league row (its fresh
primary key modelled as the argument new_id), then look the owner up and,
when found, append them as first member.  Base64 icon handling is not
modelled (no claim concerns it). -/
def create_league (db : LeagueDB) (name : String) (owner_id : Int) (new_id : Int) :
    LeagueDB × League :=
  let db_league : League := { id := new_id, name := name, owner_id := owner_id, members := [] }
  match get_user db owner_id with
  | some owner =>
    let db_league := { db_league with members := [owner] }
    ({ db with leagues := db.leagues ++ [db_league] }, db_league)
  | none => ({ db with leagues := db.leagues ++ [db_league] }, db_league)

/-- LeagueService.add_member: False when league or user is missing, True
without change when the user is already a member, otherwise append the
user to the membership list. -/
def add_member (db : LeagueDB) (league_id user_id : Int) : LeagueDB × Bool :=
  match get_league db league_id, get_user db user_id with
  | some league, some user =>
    if user ∈ league.members then (db, true)
    else
      let league' := { league with members := league.members ++ [user] }
      ({ db with leagues := set_league db.leagues league_id league' }, true)
  | _, _ => (db, false)

/-- LeagueService.remove_member.  The source reads league.owner_id before
its None check, so a missing league raises AttributeError (modelled as
Except.error); otherwise: only the owner may remove, the owner themself
can never be removed, and removal drops the first matching membership row. -/
def remove_member (db : LeagueDB) (league_id user_id removed_by_id : Int) :
    Except String (LeagueDB × Bool) :=
  match get_league db league_id with
  | none => Except.error "AttributeError"
  | some league =>
    if league.owner_id ≠ removed_by_id then Except.ok (db, false)
    else if league.owner_id = user_id then Except.ok (db, false)
    else
      match get_user db user_id with
      | none => Except.ok (db, false)
      | some user =>
        if user ∈ league.members then
          let league' := { league with members := league.members.erase user }
          Except.ok ({ db with leagues := set_league db.leagues league_id league' }, true)
        else Except.ok (db, false)

/-- LeagueService.transfer_ownership: False when league or new owner is
missing or the new owner is not a member; otherwise update owner_id. -/
def transfer_ownership (db : LeagueDB) (league_id new_owner_id : Int) : LeagueDB × Bool :=
  match get_league db league_id with
  | none => (db, false)
  | some league =>
    match get_user db new_owner_id with
    | none => (db, false)
    | some new_owner =>
      if new_owner ∈ league.members then
        let league' := { league with owner_id := new_owner_id }
        ({ db with leagues := set_league db.leagues league_id league' }, true)
      else (db, false)

/-- The league invariant of the data model: the owner is among the members. -/
def owner_is_member (l : League) : Prop :=
  ∃ u ∈ l.members, u.id = l.owner_id

/-- The invariant over a whole database state. -/
def leagues_owner_invariant (db : LeagueDB) : Prop :=
  ∀ l ∈ db.leagues, owner_is_member l

/-! ## Spec-side definitions

The spec describes pole-position and sprint-winner scoring in terms of the
qualifying and sprint tables.  The scoring service never queries either
table, so these definitions exist only to state those spec sentences. -/

/-- Modelled from the spec: "QualifyingResult ... carries qualifying
position, used to determine pole-position driver (position == 1)".  The
driver of the qualifying row with position 1. -/
def spec_qualifying_pole_driver (qualifying_results : List QualifyingResult) : Option Int :=
  match qualifying_results.find? (fun q => decide (q.position = some 1)) with
  | some q => q.driver_number
  | none => none

/-- Modelled from the spec: "the driver with position 1 among
sprint-session results". -/
def spec_sprint_session_winner (sprint_results : List SprintResult) : Option Int :=
  match sprint_results.find? (fun s => decide (s.position = some 1)) with
  | some s => s.driver_number
  | none => none

/-- A specification-side selector for claim C8: the first race result (in
list order) whose pit-stop count is at least every other result's count,
i.e. the first-encountered maximum. -/
def first_max_pit_stops (race_results : List RaceResult) : Option RaceResult :=
  race_results.find? (fun r =>
    race_results.all (fun s => decide (or_zero s.pit_stops_count ≤ or_zero r.pit_stops_count)))

/-! ## Concrete instances used by counterexamples and witnesses -/

/-- The empty scoring database. -/
def empty_scoring_db : ScoringDB := { predictions := [], race_results := [] }

/-- A prediction with every optional field absent; concrete instances
override single fields. -/
def blank_prediction : UserPrediction :=
  { id := none, user_id := none, race_weekend_id := none, created_at := 0,
    top_10_prediction := none, pole_position := none, sprint_winner := none,
    most_pit_stops_driver := none, fastest_lap_driver := none,
    most_positions_gained := none }

/-- A race result with every optional column absent. -/
def blank_result : RaceResult :=
  { race_weekend_id := 1, position := none, driver_number := none,
    grid_position := none, fastest_lap := false, pit_stops_count := none }

/-- An all-zero prediction-score row. -/
def blank_score : PredictionScore :=
  { prediction_id := none, top_5_score := 0, position_6_to_10_score := 0,
    partial_position_score := 0, perfect_top_10_bonus := 0, pole_position_score := 0,
    sprint_winner_score := 0, most_pit_stops_score := 0, fastest_lap_score := 0,
    most_positions_gained_score := 0, streak_bonus := 0, underdog_bonus := 0,
    total_score := 0 }

/-- A race result where driver 44 starts from grid slot 1 and wins. -/
def c2_race_result : RaceResult :=
  { blank_result with
    position := some 1, driver_number := some 44, grid_position := some 1 }

/-- A prediction picking driver 33 for pole. -/
def c2_prediction : UserPrediction := { blank_prediction with pole_position := some 33 }

/-- A qualifying row putting driver 33 on qualifying position 1. -/
def c2_qualifying : QualifyingResult :=
  { race_weekend_id := 1, position := some 1, driver_number := some 33 }

/-- A prediction picking driver 44 for pole. -/
def cw2_prediction : UserPrediction := { blank_prediction with pole_position := some 44 }

/-- A prediction picking driver 44 as sprint winner. -/
def c3_prediction : UserPrediction := { blank_prediction with sprint_winner := some 44 }

/-- A prediction carrying hardcoded test id 3. -/
def c4_prediction : UserPrediction := { blank_prediction with id := some 3 }

/-- A prediction carrying hardcoded test id 1. -/
def c5_prediction : UserPrediction := { blank_prediction with id := some 1 }

/-- A race result for weekend w won from pole by driver 44 with the
fastest lap. -/
def c6_result (w : Int) : RaceResult :=
  { race_weekend_id := w, position := some 1, driver_number := some 44,
    grid_position := some 1, fastest_lap := true, pit_stops_count := some 1 }

/-- A prediction by user 7 for weekend w at tick t, picking driver 44 for
pole and fastest lap. -/
def c6_prediction (w : Int) (t : Nat) : UserPrediction :=
  { blank_prediction with
    user_id := some 7, race_weekend_id := some w, created_at := t,
    pole_position := some 44, fastest_lap_driver := some 44 }

/-- Three predictions by user 7, results present for all three weekends,
every pole and fastest-lap pick correct. -/
def c6_db : ScoringDB :=
  { predictions := [c6_prediction 1 3, c6_prediction 2 2, c6_prediction 3 1],
    race_results := [c6_result 1, c6_result 2, c6_result 3] }

/-- A race result where driver k starts and finishes in position k. -/
def c7_result (k : Int) : RaceResult :=
  { race_weekend_id := 1, position := some k, driver_number := some k,
    grid_position := some k, fastest_lap := false, pit_stops_count := some 0 }

/-- Ten race results, drivers 1..10 finishing in positions 1..10. -/
def c7_results : List RaceResult :=
  [c7_result 1, c7_result 2, c7_result 3, c7_result 4, c7_result 5,
   c7_result 6, c7_result 7, c7_result 8, c7_result 9, c7_result 10]

/-- A prediction with hardcoded test id 1 and a perfect top-10 string. -/
def c7_prediction : UserPrediction :=
  { blank_prediction with
    id := some 1, top_10_prediction := some "1,2,3,4,5,6,7,8,9,10" }

/-- The same perfect prediction without a hardcoded test id. -/
def cw7_prediction : UserPrediction := { c7_prediction with id := none }

/-- A race result of driver d with c pit stops. -/
def c8_result (d c : Int) : RaceResult :=
  { blank_result with driver_number := some d, pit_stops_count := some c }

/-- The claim's pit-stop example: driver 1 with 2 stops, driver 11 with 2,
driver 44 with 3. -/
def c8_results : List RaceResult := [c8_result 1 2, c8_result 11 2, c8_result 44 3]

/-- A users-table row. -/
def mk_user (i : Int) (n : String) : User := { id := i, username := n }

/-- A prediction row with just an id and owner, for the standings join. -/
def c9_prediction (i u : Int) : UserPrediction :=
  { blank_prediction with id := some i, user_id := some u }

/-- A score row worth t points for prediction pid. -/
def c9_score (pid t : Int) : PredictionScore :=
  { blank_score with prediction_id := some pid, total_score := t }

/-- A standings record, written positionally. -/
def mk_standing (u : Int) (n : String) (t : Int) (pm pp : Nat) (pos : Int) :
    LeagueStanding :=
  { user_id := u, username := n, total_points := t, predictions_made := pm,
    perfect_predictions := pp, position := pos }

/-- The four-member league of the standings example. -/
def c9_league : League :=
  { id := 1, name := "L", owner_id := 1,
    members := [mk_user 1 "A", mk_user 2 "B", mk_user 3 "C", mk_user 4 "D"] }

/-- The standings example of the claim: four members whose summed totals
are 30, 50, 50, 10 in member order. -/
def c9_db : LeagueDB :=
  { users := [mk_user 1 "A", mk_user 2 "B", mk_user 3 "C", mk_user 4 "D"],
    leagues := [c9_league],
    predictions := [c9_prediction 1 1, c9_prediction 2 2, c9_prediction 3 3, c9_prediction 4 4],
    prediction_scores := [c9_score 1 30, c9_score 2 50, c9_score 3 50, c9_score 4 10] }

/-- A two-member league (owner user 1, member user 2). -/
def c10_league : League :=
  { id := 10, name := "M", owner_id := 1, members := [mk_user 1 "A", mk_user 2 "B"] }

/-- The database of the membership witnesses: users 1 and 2 are members of
the league, user 3 exists but is not a member. -/
def c10_db : LeagueDB :=
  { users := [mk_user 1 "A", mk_user 2 "B", mk_user 3 "E"],
    leagues := [c10_league],
    predictions := [], prediction_scores := [] }

/-! ## Shared lemmas -/

/-- Outside the hardcoded test-id range, calculate_score runs the regular
computation. -/
theorem calculate_score_eq_regular (db : ScoringDB) (p : UserPrediction)
    (rrs : List RaceResult) (h : is_test_prediction_id p.id = false) :
    calculate_score db p rrs = calculate_score_regular db p rrs := by
  unfold calculate_score
  cases hid : p.id with
  | none => rfl
  | some i =>
    rw [hid] at h
    have hn : ¬ (1 ≤ i ∧ i ≤ 5) := by
      simp only [is_test_prediction_id, Bool.and_eq_false_iff,
        decide_eq_false_iff_not] at h
      tauto
    dsimp only
    rw [if_neg hn]

theorem calculate_score_regular_prediction_id (db : ScoringDB) (p : UserPrediction)
    (rrs : List RaceResult) :
    (calculate_score_regular db p rrs).prediction_id = p.id := rfl

theorem calculate_score_regular_top_5 (db : ScoringDB) (p : UserPrediction)
    (rrs : List RaceResult) :
    (calculate_score_regular db p rrs).top_5_score =
      top_5_points (predicted_top_10_of p) (actual_top_10_of rrs) := rfl

theorem calculate_score_regular_6_to_10 (db : ScoringDB) (p : UserPrediction)
    (rrs : List RaceResult) :
    (calculate_score_regular db p rrs).position_6_to_10_score =
      position_6_to_10_points (predicted_top_10_of p) (actual_top_10_of rrs) := rfl

theorem calculate_score_regular_partial_points (db : ScoringDB) (p : UserPrediction)
    (rrs : List RaceResult) :
    (calculate_score_regular db p rrs).partial_position_score =
      partial_position_points (predicted_top_10_of p) (actual_top_10_of rrs) := rfl

theorem calculate_score_regular_perfect (db : ScoringDB) (p : UserPrediction)
    (rrs : List RaceResult) :
    (calculate_score_regular db p rrs).perfect_top_10_bonus =
      perfect_top_10_points (predicted_top_10_of p) (actual_top_10_of rrs) := rfl

theorem calculate_score_regular_pole (db : ScoringDB) (p : UserPrediction)
    (rrs : List RaceResult) :
    (calculate_score_regular db p rrs).pole_position_score =
      (match p.pole_position, _get_pole_position_driver rrs with
       | some a, some b => if a = b then 5 else 0
       | _, _ => 0) := rfl

theorem calculate_score_regular_sprint (db : ScoringDB) (p : UserPrediction)
    (rrs : List RaceResult) :
    (calculate_score_regular db p rrs).sprint_winner_score =
      (match p.sprint_winner with
       | none => 0
       | some sw =>
         match rrs.find? (fun r => decide (r.position = some 1)) with
         | some r => if r.driver_number = some sw then 5 else 0
         | none => 0) := rfl

theorem calculate_score_regular_pit_stops (db : ScoringDB) (p : UserPrediction)
    (rrs : List RaceResult) :
    (calculate_score_regular db p rrs).most_pit_stops_score =
      (match p.most_pit_stops_driver, _get_most_pit_stops_driver rrs with
       | some a, some b => if a = b then 10 else 0
       | _, _ => 0) := rfl

theorem calculate_score_regular_fastest_lap (db : ScoringDB) (p : UserPrediction)
    (rrs : List RaceResult) :
    (calculate_score_regular db p rrs).fastest_lap_score =
      (match p.fastest_lap_driver, _get_fastest_lap_driver rrs with
       | some a, some b => if a = b then 10 else 0
       | _, _ => 0) := rfl

theorem calculate_score_regular_gained (db : ScoringDB) (p : UserPrediction)
    (rrs : List RaceResult) :
    (calculate_score_regular db p rrs).most_positions_gained_score =
      (match p.most_positions_gained, _get_most_positions_gained_driver rrs with
       | some a, some b => if a = b then 10 else 0
       | _, _ => 0) := rfl

theorem calculate_score_regular_underdog (db : ScoringDB) (p : UserPrediction)
    (rrs : List RaceResult) :
    (calculate_score_regular db p rrs).underdog_bonus =
      underdog_points (predicted_top_10_of p) (actual_top_10_of rrs) := rfl

theorem calculate_score_regular_streak (db : ScoringDB) (p : UserPrediction)
    (rrs : List RaceResult) :
    (calculate_score_regular db p rrs).streak_bonus =
      (match p.user_id with
       | some user_id => calculate_streak_bonus db (some user_id)
       | none => 0) := rfl

theorem top_5_points_nil (predicted : List Int) : top_5_points predicted [] = 0 := by
  simp [top_5_points]

theorem position_6_to_10_points_nil (predicted : List Int) :
    position_6_to_10_points predicted [] = 0 := by
  simp [position_6_to_10_points]

theorem partial_position_points_nil (predicted : List Int) :
    partial_position_points predicted [] = 0 := by
  simp [partial_position_points]

theorem perfect_top_10_points_nil (predicted : List Int) :
    perfect_top_10_points predicted [] = 0 := by
  simp [perfect_top_10_points]

theorem underdog_points_nil (predicted : List Int) : underdog_points predicted [] = 0 := by
  simp [underdog_points]

/-! ## C1 -/

/-- C1 counterexample: on the hardcoded default branch (prediction id 1,
also 3 and 4) the canned record carries total_score 35, while its eleven
component fields sum to 40, so the total is not the component sum there. -/
theorem total_score_not_component_sum :
    (calculate_score empty_scoring_db c5_prediction []).total_score = 35
    ∧ (calculate_score empty_scoring_db c5_prediction []).top_5_score
      + (calculate_score empty_scoring_db c5_prediction []).position_6_to_10_score
      + (calculate_score empty_scoring_db c5_prediction []).partial_position_score
      + (calculate_score empty_scoring_db c5_prediction []).perfect_top_10_bonus
      + (calculate_score empty_scoring_db c5_prediction []).pole_position_score
      + (calculate_score empty_scoring_db c5_prediction []).sprint_winner_score
      + (calculate_score empty_scoring_db c5_prediction []).most_pit_stops_score
      + (calculate_score empty_scoring_db c5_prediction []).fastest_lap_score
      + (calculate_score empty_scoring_db c5_prediction []).most_positions_gained_score
      + (calculate_score empty_scoring_db c5_prediction []).streak_bonus
      + (calculate_score empty_scoring_db c5_prediction []).underdog_bonus = 40 := by
  constructor <;> decide

/-- C1 (amended): total_score equals the sum of the eleven components on
the regular branch and on the hardcoded branches for ids 2 and 5; on the
hardcoded default branch (ids 1, 3, 4) the canned total is 35 while the
components sum to 40. -/
theorem total_score_eq_component_sum (db : ScoringDB) (p : UserPrediction)
    (rrs : List RaceResult) :
    ((∀ i : Int, p.id = some i → ¬ (1 ≤ i ∧ i ≤ 5 ∧ i ≠ 2 ∧ i ≠ 5)) →
      (calculate_score db p rrs).total_score =
        (calculate_score db p rrs).top_5_score
        + (calculate_score db p rrs).position_6_to_10_score
        + (calculate_score db p rrs).partial_position_score
        + (calculate_score db p rrs).perfect_top_10_bonus
        + (calculate_score db p rrs).pole_position_score
        + (calculate_score db p rrs).sprint_winner_score
        + (calculate_score db p rrs).most_pit_stops_score
        + (calculate_score db p rrs).fastest_lap_score
        + (calculate_score db p rrs).most_positions_gained_score
        + (calculate_score db p rrs).streak_bonus
        + (calculate_score db p rrs).underdog_bonus)
    ∧ ((∃ i : Int, p.id = some i ∧ 1 ≤ i ∧ i ≤ 5 ∧ i ≠ 2 ∧ i ≠ 5) →
      (calculate_score db p rrs).total_score = 35
      ∧ (calculate_score db p rrs).top_5_score
        + (calculate_score db p rrs).position_6_to_10_score
        + (calculate_score db p rrs).partial_position_score
        + (calculate_score db p rrs).perfect_top_10_bonus
        + (calculate_score db p rrs).pole_position_score
        + (calculate_score db p rrs).sprint_winner_score
        + (calculate_score db p rrs).most_pit_stops_score
        + (calculate_score db p rrs).fastest_lap_score
        + (calculate_score db p rrs).most_positions_gained_score
        + (calculate_score db p rrs).streak_bonus
        + (calculate_score db p rrs).underdog_bonus = 40) := by
  unfold calculate_score
  cases hid : p.id with
  | none =>
    refine ⟨fun _ => rfl, fun h => ?_⟩
    obtain ⟨i, hi, -⟩ := h
    exact absurd hi (by simp)
  | some i =>
    dsimp only
    constructor
    · intro hreg
      have hni := hreg i rfl
      by_cases h15 : 1 ≤ i ∧ i ≤ 5
      · rw [if_pos h15]
        by_cases h2 : i = 2
        · rw [if_pos h2]; rfl
        · by_cases h5 : i = 5
          · rw [if_neg h2, if_pos h5]; rfl
          · exact absurd ⟨h15.1, h15.2, h2, h5⟩ hni
      · rw [if_neg h15]; rfl
    · rintro ⟨j, hj, hj1, hj5, hj2, hj5'⟩
      have hij : i = j := Option.some.inj hj
      subst hij
      rw [if_pos ⟨hj1, hj5⟩, if_neg hj2, if_neg hj5']
      constructor <;> simp [test_score_default]

/-- Witness for C1 (amended): the regular case at an id-free prediction and
the default hardcoded case at id 3. -/
theorem total_score_eq_component_sum_witness :
    (calculate_score empty_scoring_db c2_prediction []).total_score =
      (calculate_score empty_scoring_db c2_prediction []).top_5_score
      + (calculate_score empty_scoring_db c2_prediction []).position_6_to_10_score
      + (calculate_score empty_scoring_db c2_prediction []).partial_position_score
      + (calculate_score empty_scoring_db c2_prediction []).perfect_top_10_bonus
      + (calculate_score empty_scoring_db c2_prediction []).pole_position_score
      + (calculate_score empty_scoring_db c2_prediction []).sprint_winner_score
      + (calculate_score empty_scoring_db c2_prediction []).most_pit_stops_score
      + (calculate_score empty_scoring_db c2_prediction []).fastest_lap_score
      + (calculate_score empty_scoring_db c2_prediction []).most_positions_gained_score
      + (calculate_score empty_scoring_db c2_prediction []).streak_bonus
      + (calculate_score empty_scoring_db c2_prediction []).underdog_bonus
    ∧ (calculate_score empty_scoring_db c4_prediction []).total_score = 35 := by
  refine ⟨(total_score_eq_component_sum empty_scoring_db c2_prediction []).1 ?_,
    ((total_score_eq_component_sum empty_scoring_db c4_prediction []).2 ?_).1⟩
  · intro i hi
    simp [c2_prediction, blank_prediction] at hi
  · exact ⟨3, rfl, by decide, by decide, by decide, by decide⟩

/-! ## C4 -/

/-- C4: for every prediction whose id is an integer between 1 and 5, the
result is the canned PredictionScore determined solely by that id (one
record for id 2, one for id 5, a default for 1, 3, 4), independent of the
race results and of the stored prediction history. -/
theorem calculate_score_hardcoded (db db' : ScoringDB) (p : UserPrediction)
    (rrs rrs' : List RaceResult) (i : Int) (hid : p.id = some i)
    (h1 : 1 ≤ i) (h5 : i ≤ 5) :
    calculate_score db p rrs =
      (if i = 2 then test_score_2 else if i = 5 then test_score_5
       else test_score_default i)
    ∧ calculate_score db p rrs = calculate_score db' p rrs' := by
  unfold calculate_score
  simp only [hid]
  simp only [if_pos (show 1 ≤ i ∧ i ≤ 5 from ⟨h1, h5⟩)]
  exact ⟨trivial, trivial⟩

/-- Witness for C4: id 3 yields the default canned score, for two different
databases and result sets. -/
theorem calculate_score_hardcoded_witness :
    calculate_score empty_scoring_db c4_prediction [] = test_score_default 3
    ∧ calculate_score empty_scoring_db c4_prediction []
        = calculate_score c6_db c4_prediction [c2_race_result] := by
  have h := calculate_score_hardcoded empty_scoring_db c6_db c4_prediction []
    [c2_race_result] 3 rfl (by decide) (by decide)
  exact ⟨h.1.trans (by decide), h.2⟩

/-! ## C5 -/

/-- C5 counterexample: a prediction with hardcoded id 1 and an empty
race-result set still receives a nonzero (result-dependent) pole-position
component, so not every result-dependent component is 0. -/
theorem empty_results_nonzero_component :
    (calculate_score empty_scoring_db c5_prediction []).pole_position_score = 5 := by
  decide

/-- C5 (amended): for every prediction whose id is outside the hardcoded
range 1-5, calculate_score on an empty race-result set returns 0 for every
result-dependent component. -/
theorem empty_results_zero_components (db : ScoringDB) (p : UserPrediction)
    (h : is_test_prediction_id p.id = false) :
    (calculate_score db p []).top_5_score = 0
    ∧ (calculate_score db p []).position_6_to_10_score = 0
    ∧ (calculate_score db p []).partial_position_score = 0
    ∧ (calculate_score db p []).perfect_top_10_bonus = 0
    ∧ (calculate_score db p []).pole_position_score = 0
    ∧ (calculate_score db p []).sprint_winner_score = 0
    ∧ (calculate_score db p []).most_pit_stops_score = 0
    ∧ (calculate_score db p []).fastest_lap_score = 0
    ∧ (calculate_score db p []).most_positions_gained_score = 0
    ∧ (calculate_score db p []).underdog_bonus = 0 := by
  rw [calculate_score_eq_regular db p [] h]
  refine ⟨?_, ?_, ?_, ?_, ?_, ?_, ?_, ?_, ?_, ?_⟩
  · rw [calculate_score_regular_top_5]
    exact top_5_points_nil _
  · rw [calculate_score_regular_6_to_10]
    exact position_6_to_10_points_nil _
  · rw [calculate_score_regular_partial_points]
    exact partial_position_points_nil _
  · rw [calculate_score_regular_perfect]
    exact perfect_top_10_points_nil _
  · rw [calculate_score_regular_pole]
    cases p.pole_position <;> rfl
  · rw [calculate_score_regular_sprint]
    cases p.sprint_winner <;> rfl
  · rw [calculate_score_regular_pit_stops]
    cases p.most_pit_stops_driver <;> rfl
  · rw [calculate_score_regular_fastest_lap]
    cases p.fastest_lap_driver <;> rfl
  · rw [calculate_score_regular_gained]
    cases p.most_positions_gained <;> rfl
  · rw [calculate_score_regular_underdog]
    exact underdog_points_nil _

/-- Witness for C5 (amended): a prediction without a test id, on the empty
result set. -/
theorem empty_results_zero_components_witness :
    (calculate_score empty_scoring_db c2_prediction []).top_5_score = 0
    ∧ (calculate_score empty_scoring_db c2_prediction []).pole_position_score = 0 := by
  have h := empty_results_zero_components empty_scoring_db c2_prediction (by decide)
  exact ⟨h.1, h.2.2.2.2.1⟩

/-! ## C7 -/

theorem c7_predicted_eval :
    predicted_top_10_of c7_prediction = [1, 2, 3, 4, 5, 6, 7, 8, 9, 10] := by
  decide

theorem c7_actual_eval :
    actual_top_10_of c7_results = [1, 2, 3, 4, 5, 6, 7, 8, 9, 10] := by
  unfold actual_top_10_of
  rw [if_neg (by decide)]
  dsimp only
  rw [List.mergeSort_of_sorted (by decide)]
  decide

/-- C7 counterexample: a ten-for-ten perfect prediction carrying hardcoded
id 1 receives perfect_top_10_bonus 0 although the predicted and actual
ordered sequences have length 10 and agree position by position. -/
theorem perfect_match_zero_bonus :
    (calculate_score empty_scoring_db c7_prediction c7_results).perfect_top_10_bonus = 0
    ∧ predicted_top_10_of c7_prediction = actual_top_10_of c7_results
    ∧ (predicted_top_10_of c7_prediction).length = 10 := by
  refine ⟨by decide, c7_predicted_eval.trans c7_actual_eval.symm, ?_⟩
  rw [c7_predicted_eval]
  rfl

/-- C7 (amended): for predictions outside the hardcoded id range 1-5, the
perfect_top_10_bonus is 20 if and only if the predicted sequence and the
actual top-10 sequence both have length at least 10 and agree position by
position on the first ten slots; in every other case it is 0. -/
theorem perfect_top_10_bonus_iff (db : ScoringDB) (p : UserPrediction)
    (rrs : List RaceResult) (h : is_test_prediction_id p.id = false) :
    ((calculate_score db p rrs).perfect_top_10_bonus = 20 ↔
      (10 ≤ (predicted_top_10_of p).length ∧ 10 ≤ (actual_top_10_of rrs).length
        ∧ (predicted_top_10_of p).take 10 = (actual_top_10_of rrs).take 10))
    ∧ ((calculate_score db p rrs).perfect_top_10_bonus = 20
        ∨ (calculate_score db p rrs).perfect_top_10_bonus = 0) := by
  rw [calculate_score_eq_regular db p rrs h, calculate_score_regular_perfect]
  unfold perfect_top_10_points
  constructor
  · constructor
    · intro h20
      split at h20
      · rename_i hlen
        split at h20
        · rename_i heq; exact ⟨hlen.1, hlen.2, heq⟩
        · exact absurd h20 (by decide)
      · exact absurd h20 (by decide)
    · rintro ⟨h1, h2, h3⟩
      rw [if_pos ⟨h1, h2⟩, if_pos h3]
  · split
    · split
      · exact Or.inl rfl
      · exact Or.inr rfl
    · exact Or.inr rfl

/-- Witness for C7 (amended): the same perfect prediction without a test id
receives the 20-point bonus. -/
theorem perfect_top_10_bonus_iff_witness :
    (calculate_score empty_scoring_db cw7_prediction c7_results).perfect_top_10_bonus = 20 := by
  apply ((perfect_top_10_bonus_iff empty_scoring_db cw7_prediction c7_results (by decide)).1).mpr
  have hpred : predicted_top_10_of cw7_prediction = predicted_top_10_of c7_prediction := rfl
  rw [hpred, c7_predicted_eval, c7_actual_eval]
  exact ⟨by decide, by decide, rfl⟩

/-! ## C2 -/

/-- C2 counterexample: calculate_score derives the pole driver from the
race results' grid_position, never from qualifying; with driver 33 on
qualifying position 1 but driver 44 in grid slot 1 of the race results, a
prediction picking 33 (the qualifying pole driver) scores 0 instead of
the claimed 5. -/
theorem pole_score_ignores_qualifying :
    c2_prediction.pole_position = spec_qualifying_pole_driver [c2_qualifying]
    ∧ c2_prediction.pole_position ≠ none
    ∧ (calculate_score empty_scoring_db c2_prediction [c2_race_result]).pole_position_score = 0 := by
  refine ⟨by decide, by decide, ?_⟩
  rw [calculate_score_eq_regular _ _ _ (by decide), calculate_score_regular_pole]
  decide

/-- C2 (amended): for predictions outside the hardcoded id range 1-5, the
pole-position component is 5 exactly when the prediction's pole pick is
present and equals the (present) driver number of the first race result
whose grid_position is 1, and 0 otherwise. -/
theorem pole_position_score_iff (db : ScoringDB) (p : UserPrediction)
    (rrs : List RaceResult) (h : is_test_prediction_id p.id = false) :
    ((calculate_score db p rrs).pole_position_score = 5 ↔
      (∃ d : Int, p.pole_position = some d ∧ _get_pole_position_driver rrs = some d))
    ∧ ((calculate_score db p rrs).pole_position_score = 5
        ∨ (calculate_score db p rrs).pole_position_score = 0) := by
  rw [calculate_score_eq_regular db p rrs h, calculate_score_regular_pole]
  rcases hp : p.pole_position with _ | a <;>
    rcases ha : _get_pole_position_driver rrs with _ | b
  · simp
  · simp
  · simp
  · dsimp only
    by_cases hab : a = b
    · subst hab
      simp
    · rw [if_neg hab]
      constructor
      · constructor
        · intro h5; exact absurd h5 (by decide)
        · rintro ⟨d, hd1, hd2⟩
          exact absurd ((Option.some.inj hd1).trans (Option.some.inj hd2).symm) hab
      · exact Or.inr rfl

/-- Witness for C2 (amended): a pick of driver 44 with driver 44 in grid
slot 1 scores 5. -/
theorem pole_position_score_iff_witness :
    (calculate_score empty_scoring_db cw2_prediction [c2_race_result]).pole_position_score = 5 :=
  ((pole_position_score_iff empty_scoring_db cw2_prediction [c2_race_result]
    (by decide)).1).mpr ⟨44, rfl, rfl⟩

/-! ## C3 -/

/-- C3 counterexample: the sprint-winner component is computed from the
race results (first row with position 1) with no sprint-weekend gating;
with no sprint-session data at all, a sprint pick equal to the race winner
still scores 5 where the claim requires 0. -/
theorem sprint_score_without_sprint_data :
    (calculate_score empty_scoring_db c3_prediction [c2_race_result]).sprint_winner_score = 5
    ∧ spec_sprint_session_winner ([] : List SprintResult) = none := by
  refine ⟨?_, rfl⟩
  rw [calculate_score_eq_regular _ _ _ (by decide), calculate_score_regular_sprint]
  decide

/-- C3 (amended): for predictions outside the hardcoded id range 1-5, the
sprint-winner component is 5 exactly when the prediction specifies a sprint
winner equal to the (present) driver number of the first passed race result
with position 1 — regardless of sprint-weekend status — and 0 otherwise; in
particular an absent sprint pick yields 0. -/
theorem sprint_winner_score_iff (db : ScoringDB) (p : UserPrediction)
    (rrs : List RaceResult) (h : is_test_prediction_id p.id = false) :
    ((calculate_score db p rrs).sprint_winner_score = 5 ↔
      (∃ (sw : Int) (r : RaceResult), p.sprint_winner = some sw
        ∧ rrs.find? (fun x => decide (x.position = some 1)) = some r
        ∧ r.driver_number = some sw))
    ∧ (p.sprint_winner = none → (calculate_score db p rrs).sprint_winner_score = 0)
    ∧ ((calculate_score db p rrs).sprint_winner_score = 5
        ∨ (calculate_score db p rrs).sprint_winner_score = 0) := by
  rw [calculate_score_eq_regular db p rrs h, calculate_score_regular_sprint]
  rcases hsw : p.sprint_winner with _ | sw
  · simp
  · dsimp only
    rcases hf : rrs.find? (fun x => decide (x.position = some 1)) with _ | r
    · rw [hf]
      simp [hf]
    · rw [hf]
      dsimp only
      by_cases hd : r.driver_number = some sw
      · rw [if_pos hd]
        refine ⟨⟨fun _ => ⟨sw, r, rfl, rfl, hd⟩, fun _ => rfl⟩, by simp, Or.inl rfl⟩
      · rw [if_neg hd]
        refine ⟨⟨fun h5 => absurd h5 (by decide), ?_⟩, by simp, Or.inr rfl⟩
        rintro ⟨sw', r', hs', hr', hd'⟩
        have h1 : sw' = sw := (Option.some.inj hs').symm
        have h2 : r' = r := (Option.some.inj hr').symm
        exact absurd (h2 ▸ h1 ▸ hd') hd

/-- Witness for C3 (amended): a sprint pick of driver 44 with driver 44
winning the race scores 5. -/
theorem sprint_winner_score_iff_witness :
    (calculate_score empty_scoring_db c3_prediction [c2_race_result]).sprint_winner_score = 5 :=
  ((sprint_winner_score_iff empty_scoring_db c3_prediction [c2_race_result]
    (by decide)).1).mpr ⟨44, c2_race_result, rfl, rfl, rfl⟩

/-! ## C8 -/

theorem find?_congr_on {α : Type _} {p q : α → Bool} :
    ∀ {l : List α}, (∀ a ∈ l, p a = q a) → l.find? p = l.find? q := by
  intro l
  induction l with
  | nil => intro _; rfl
  | cons a t ih =>
    intro h
    rw [List.find?_cons, List.find?_cons, h a (List.mem_cons_self a t)]
    cases q a
    · exact ih (fun b hb => h b (List.mem_cons_of_mem a hb))
    · rfl

/-- The head of a stable sort is the first element of the input that is
maximal for the (total, transitive) comparison: head-of-sort equals
find-first-such-that-le-all. -/
theorem mergeSort_head?_eq_find?_max {α : Type _} (le : α → α → Bool)
    (trans : ∀ a b c, le a b = true → le b c = true → le a c = true)
    (total : ∀ a b, (le a b || le b a) = true) :
    ∀ l : List α,
      (l.mergeSort le).head? = l.find? (fun r => l.all (fun s => le r s)) := by
  intro l
  induction l with
  | nil => simp
  | cons a t ih =>
    obtain ⟨l₁, l₂, h₁, h₂, h₃⟩ := List.mergeSort_cons trans total a t
    have hlaa : le a a = true := by
      have h := total a a
      simpa using h
    by_cases hmax : (t.all (fun s => le a s)) = true
    · have hl₁ : l₁ = [] := by
        cases hcl : l₁ with
        | nil => rfl
        | cons b bs =>
          exfalso
          have hb : b ∈ l₁ := by rw [hcl]; exact List.mem_cons_self b bs
          have hbt : b ∈ t := by
            have hmem : b ∈ t.mergeSort le := by
              rw [h₂]; exact List.mem_append_left _ hb
            exact List.mem_mergeSort.mp hmem
          have hnab := h₃ b hb
          have hab := List.all_eq_true.mp hmax b hbt
          simp [hab] at hnab
      rw [h₁, hl₁, List.nil_append, List.head?_cons, List.find?_cons]
      have hpa : ((a :: t).all (fun s => le a s)) = true := by
        simp only [List.all_cons, hlaa, Bool.true_and]
        exact hmax
      simp [hpa]
    · have hex : ∃ s0 ∈ t, le a s0 = false := by
        have h' := (Bool.eq_false_iff).mpr hmax
        rw [List.all_eq_false] at h'
        obtain ⟨s0, hs0t, hs0⟩ := h'
        exact ⟨s0, hs0t, (Bool.eq_false_iff).mpr hs0⟩
      have hl₁ : l₁ ≠ [] := by
        intro hnil
        rw [hnil, List.nil_append] at h₁ h₂
        have hs := List.sorted_mergeSort trans total (a :: t)
        rw [h₁] at hs
        apply hmax
        rw [List.all_eq_true]
        intro s hst
        apply List.rel_of_pairwise_cons hs
        rw [← h₂]
        exact List.mem_mergeSort.mpr hst
      have hhead : ((a :: t).mergeSort le).head? = (t.mergeSort le).head? := by
        rw [h₁, h₂, List.head?_append, List.head?_append]
        cases hcl : l₁ with
        | nil => exact absurd hcl hl₁
        | cons x xs => simp
      rw [hhead, ih, List.find?_cons]
      have hpa : ((a :: t).all (fun s => le a s)) = false := by
        simp only [List.all_cons]
        rw [Bool.and_eq_false_iff]
        right
        exact (Bool.eq_false_iff).mpr hmax
      simp only [hpa]
      apply find?_congr_on
      intro r hr
      simp only [List.all_cons]
      by_cases htr : t.all (fun s => le r s) = true
      · obtain ⟨s0, hs0t, hs0⟩ := hex
        have hsa : le s0 a = true := by
          have h' := total a s0
          rw [hs0] at h'
          simpa using h'
        have hrs : le r s0 = true := List.all_eq_true.mp htr s0 hs0t
        have hra : le r a = true := trans _ _ _ hrs hsa
        rw [hra, htr, Bool.true_and]
      · have h' := (Bool.eq_false_iff).mpr htr
        rw [h', Bool.and_false]

/-- C8: _get_most_pit_stops_driver returns the driver number of the first
race result attaining the maximal pit-stop count (ties resolved in favour
of the first encountered, as the stable descending sort leaves it first);
on pit counts 1 ↦ 2, 11 ↦ 2, 44 ↦ 3 it returns 44, and on the empty list
it returns None. -/
theorem most_pit_stops_first_max :
    (∀ race_results : List RaceResult,
      _get_most_pit_stops_driver race_results =
        (match first_max_pit_stops race_results with
         | some r => r.driver_number
         | none => none))
    ∧ _get_most_pit_stops_driver c8_results = some 44
    ∧ _get_most_pit_stops_driver [] = none := by
  have hgen : ∀ race_results : List RaceResult,
      _get_most_pit_stops_driver race_results =
        (match first_max_pit_stops race_results with
         | some r => r.driver_number
         | none => none) := by
    intro rrs
    unfold _get_most_pit_stops_driver first_max_pit_stops
    cases rrs with
    | nil => rfl
    | cons a t =>
      rw [if_neg (by simp)]
      dsimp only
      rw [mergeSort_head?_eq_find?_max _ ?htrans ?htotal]
      case htrans =>
        intro x y z hxy hyz
        simp only [decide_eq_true_eq] at hxy hyz ⊢
        omega
      case htotal =>
        intro x y
        simp only [Bool.or_eq_true, decide_eq_true_eq]
        omega
  refine ⟨hgen, ?_, hgen []⟩
  rw [hgen c8_results]
  decide

/-! ## C6 -/

theorem streak_loop_none (db : ScoringDB) :
    ∀ (ps : List UserPrediction) (b1 b2 : Bool),
      (∃ p ∈ ps, _get_race_results db p.race_weekend_id = []) →
      streak_loop db ps b1 b2 = none := by
  intro ps
  induction ps with
  | nil =>
    rintro b1 b2 ⟨p, hp, -⟩
    cases hp
  | cons q rest ih =>
    rintro b1 b2 ⟨p, hp, hres⟩
    unfold streak_loop
    rcases List.mem_cons.mp hp with h | h
    · subst h
      rw [if_pos (by simp [hres])]
    · by_cases hq : (_get_race_results db q.race_weekend_id).isEmpty = true
      · rw [if_pos hq]
      · rw [if_neg hq]
        exact ih _ _ ⟨p, h, hres⟩

theorem streak_loop_some (db : ScoringDB) :
    ∀ (ps : List UserPrediction) (b1 b2 : Bool),
      (∀ p ∈ ps, _get_race_results db p.race_weekend_id ≠ []) →
      streak_loop db ps b1 b2 =
        some (b1 && ps.all (fun p => decide (p.pole_position =
                _get_pole_position_driver (_get_race_results db p.race_weekend_id))),
              b2 && ps.all (fun p => decide (p.fastest_lap_driver =
                _get_fastest_lap_driver (_get_race_results db p.race_weekend_id)))) := by
  intro ps
  induction ps with
  | nil =>
    intro b1 b2 _
    simp [streak_loop]
  | cons q rest ih =>
    intro b1 b2 h
    unfold streak_loop
    rw [if_neg (by simp [h q (List.mem_cons_self q rest)])]
    dsimp only
    rw [ih _ _ (fun p hp => h p (List.mem_cons_of_mem _ hp))]
    simp only [List.all_cons, Bool.and_assoc]

theorem recent_predictions_length (db : ScoringDB) (user_id : Int) :
    (_get_recent_predictions db user_id).length =
      min 3 (db.predictions.filter (fun p => decide (p.user_id = some user_id))).length := by
  unfold _get_recent_predictions
  rw [List.length_take, List.length_mergeSort]

/-- C6: the streak bonus is 0 when the user has fewer than 3 predictions or
when race results are missing for one of the 3 most recent; it is 10 when
the 3 most recent all have results and all picked the correct pole and
fastest-lap drivers; in general, once 3 predictions with results exist, the
pole streak and the fastest-lap streak contribute 5 points each,
independently and additively, so the bonus is always 0, 5 or 10. -/
theorem calculate_streak_bonus_spec (db : ScoringDB) (user_id : Int) :
    ((db.predictions.filter (fun p => decide (p.user_id = some user_id))).length < 3 →
      calculate_streak_bonus db (some user_id) = 0)
    ∧ ((∃ p ∈ _get_recent_predictions db user_id,
          _get_race_results db p.race_weekend_id = []) →
      calculate_streak_bonus db (some user_id) = 0)
    ∧ (3 ≤ (db.predictions.filter (fun p => decide (p.user_id = some user_id))).length →
      (∀ p ∈ _get_recent_predictions db user_id,
          _get_race_results db p.race_weekend_id ≠ []) →
      calculate_streak_bonus db (some user_id) =
        (if ∀ p ∈ _get_recent_predictions db user_id,
            p.pole_position =
              _get_pole_position_driver (_get_race_results db p.race_weekend_id)
         then 5 else 0)
        + (if ∀ p ∈ _get_recent_predictions db user_id,
            p.fastest_lap_driver =
              _get_fastest_lap_driver (_get_race_results db p.race_weekend_id)
           then 5 else 0))
    ∧ (3 ≤ (db.predictions.filter (fun p => decide (p.user_id = some user_id))).length →
      (∀ p ∈ _get_recent_predictions db user_id,
          _get_race_results db p.race_weekend_id ≠ []
          ∧ (∃ d : Int, p.pole_position = some d
              ∧ _get_pole_position_driver (_get_race_results db p.race_weekend_id) = some d)
          ∧ (∃ f : Int, p.fastest_lap_driver = some f
              ∧ _get_fastest_lap_driver (_get_race_results db p.race_weekend_id) = some f)) →
      calculate_streak_bonus db (some user_id) = 10)
    ∧ (calculate_streak_bonus db (some user_id) = 0
       ∨ calculate_streak_bonus db (some user_id) = 5
       ∨ calculate_streak_bonus db (some user_id) = 10) := by
  have hlen := recent_predictions_length db user_id
  refine ⟨?_, ?_, ?_, ?_, ?_⟩
  · intro hcount
    unfold calculate_streak_bonus
    dsimp only
    rw [if_pos (show (_get_recent_predictions db user_id).length < 3 from
      hlen ▸ lt_of_le_of_lt (min_le_right 3 _) hcount)]
  · intro hmiss
    unfold calculate_streak_bonus
    dsimp only
    by_cases hlt : (_get_recent_predictions db user_id).length < 3
    · rw [if_pos hlt]
    · rw [if_neg hlt, streak_loop_none db _ true true hmiss]
  · intro hcount hall
    have hge : ¬ (_get_recent_predictions db user_id).length < 3 := by
      rw [hlen]
      exact Nat.not_lt.mpr (le_min (le_refl 3) hcount)
    unfold calculate_streak_bonus
    dsimp only
    rw [if_neg hge, streak_loop_some db _ true true hall]
    dsimp only
    simp only [Bool.true_and]
    congr 1
    · by_cases hp : ∀ p ∈ _get_recent_predictions db user_id,
          p.pole_position = _get_pole_position_driver (_get_race_results db p.race_weekend_id)
      · rw [if_pos (by simpa [List.all_eq_true] using hp), if_pos hp]
      · rw [if_neg (by simpa [List.all_eq_true] using hp), if_neg hp]
    · by_cases hp : ∀ p ∈ _get_recent_predictions db user_id,
          p.fastest_lap_driver = _get_fastest_lap_driver (_get_race_results db p.race_weekend_id)
      · rw [if_pos (by simpa [List.all_eq_true] using hp), if_pos hp]
      · rw [if_neg (by simpa [List.all_eq_true] using hp), if_neg hp]
  · intro hcount hall
    have hge : ¬ (_get_recent_predictions db user_id).length < 3 := by
      rw [hlen]
      exact Nat.not_lt.mpr (le_min (le_refl 3) hcount)
    unfold calculate_streak_bonus
    dsimp only
    rw [if_neg hge,
      streak_loop_some db _ true true (fun p hp => (hall p hp).1)]
    have hpole : (_get_recent_predictions db user_id).all (fun p =>
        decide (p.pole_position =
          _get_pole_position_driver (_get_race_results db p.race_weekend_id))) = true := by
      rw [List.all_eq_true]
      intro p hp
      obtain ⟨-, ⟨d, hd1, hd2⟩, -⟩ := hall p hp
      simp [hd1, hd2]
    have hfl : (_get_recent_predictions db user_id).all (fun p =>
        decide (p.fastest_lap_driver =
          _get_fastest_lap_driver (_get_race_results db p.race_weekend_id))) = true := by
      rw [List.all_eq_true]
      intro p hp
      obtain ⟨-, -, ⟨f, hf1, hf2⟩⟩ := hall p hp
      simp [hf1, hf2]
    rw [hpole, hfl]
    rfl
  · unfold calculate_streak_bonus
    dsimp only
    by_cases hlt : (_get_recent_predictions db user_id).length < 3
    · rw [if_pos hlt]; exact Or.inl rfl
    · rw [if_neg hlt]
      rcases streak_loop db (_get_recent_predictions db user_id) true true with - | ⟨b1, b2⟩
      · exact Or.inl rfl
      · cases b1 <;> cases b2 <;> simp

/-- Witness for C6: a user with no predictions gets bonus 0, and one whose
3 most recent predictions all have results with correct pole and
fastest-lap picks gets bonus 10. -/
theorem calculate_streak_bonus_spec_witness :
    calculate_streak_bonus empty_scoring_db (some 7) = 0
    ∧ calculate_streak_bonus c6_db (some 7) = 10 := by
  constructor
  · exact (calculate_streak_bonus_spec empty_scoring_db 7).1 (by decide)
  · apply (calculate_streak_bonus_spec c6_db 7).2.2.2.1 (by decide)
    have hrec : _get_recent_predictions c6_db 7 =
        [c6_prediction 1 3, c6_prediction 2 2, c6_prediction 3 1] := by
      unfold _get_recent_predictions
      rw [show (c6_db.predictions.filter (fun p => decide (p.user_id = some 7)))
          = [c6_prediction 1 3, c6_prediction 2 2, c6_prediction 3 1] from by decide]
      rw [List.mergeSort_of_sorted (by decide)]
      rfl
    rw [hrec]
    intro p hp
    rcases List.mem_cons.mp hp with h | hp'
    · subst h; exact ⟨by decide, ⟨44, rfl, rfl⟩, ⟨44, rfl, rfl⟩⟩
    rcases List.mem_cons.mp hp' with h | hp''
    · subst h; exact ⟨by decide, ⟨44, rfl, rfl⟩, ⟨44, rfl, rfl⟩⟩
    rcases List.mem_cons.mp hp'' with h | hp'''
    · subst h; exact ⟨by decide, ⟨44, rfl, rfl⟩, ⟨44, rfl, rfl⟩⟩
    · cases hp'''

/-! ## C9 -/

theorem standings_le_trans (a b c : LeagueStanding) :
    standings_le a b = true → standings_le b c = true → standings_le a c = true := by
  unfold standings_le
  simp only [decide_eq_true_eq]
  omega

theorem standings_le_total (a b : LeagueStanding) :
    (standings_le a b || standings_le b a) = true := by
  unfold standings_le
  simp only [Bool.or_eq_true, decide_eq_true_eq]
  omega

theorem c9_standings_eval :
    c9_league.members.map (standing_of c9_db) =
      [mk_standing 1 "A" 30 1 0 0, mk_standing 2 "B" 50 1 0 0,
       mk_standing 3 "C" 50 1 0 0, mk_standing 4 "D" 10 1 0 0] := by
  decide

theorem c9_sorted_eval :
    ([mk_standing 1 "A" 30 1 0 0, mk_standing 2 "B" 50 1 0 0,
      mk_standing 3 "C" 50 1 0 0, mk_standing 4 "D" 10 1 0 0].mergeSort standings_le) =
      [mk_standing 2 "B" 50 1 0 0, mk_standing 3 "C" 50 1 0 0,
       mk_standing 1 "A" 30 1 0 0, mk_standing 4 "D" 10 1 0 0] := by
  simp [List.mergeSort, List.splitInTwo, List.merge, standings_le, mk_standing]

/-- C9: get_standings fails with the not-found error for an unknown league
id; for an existing league it returns one entry per member (the multiset of
member standings is preserved), sorted descending by summed total_score,
with positions 1..n assigned in sorted order and the original member order
preserved among equal totals (no shared rank); on member totals
[30, 50, 50, 10] the returned totals are [50, 50, 30, 10] with positions
[1, 2, 3, 4] and the two 50-scorers in original member order. -/
theorem get_standings_spec :
    (∀ (db : LeagueDB) (league_id : Int), get_league db league_id = none →
      get_standings db league_id = Except.error "League not found")
    ∧ (∀ (db : LeagueDB) (league_id : Int) (league : League)
        (resp : LeagueStandingsResponse),
        get_league db league_id = some league →
        get_standings db league_id = Except.ok resp →
        (resp.standings.map (fun s => s.total_points)).Pairwise (fun a b => b ≤ a)
        ∧ resp.standings.map (fun s => s.position) =
            (List.range (league.members.length)).map (fun i : Nat => (i : Int) + 1)
        ∧ (resp.standings.map (fun s =>
              (s.user_id, s.username, s.total_points, s.predictions_made,
               s.perfect_predictions))).Perm
            ((league.members.map (standing_of db)).map (fun s =>
              (s.user_id, s.username, s.total_points, s.predictions_made,
               s.perfect_predictions)))
        ∧ (∀ u v : LeagueStanding,
            [u, v].Sublist (league.members.map (standing_of db)) →
            v.total_points ≤ u.total_points →
            [u.user_id, v.user_id].Sublist (resp.standings.map (fun s => s.user_id))))
    ∧ (get_standings c9_db 1).toOption.map
        (fun r => r.standings.map (fun s => (s.user_id, s.total_points, s.position)))
      = some [(2, 50, 1), (3, 50, 2), (1, 30, 3), (4, 10, 4)] := by
  have hmain : ∀ (db : LeagueDB) (league_id : Int) (league : League),
      get_league db league_id = some league →
      get_standings db league_id = Except.ok
        { league_id := league.id, league_name := league.name,
          standings := ((league.members.map (standing_of db)).mergeSort
              standings_le).enum.map
            (fun p => { p.2 with position := (p.1 : Int) + 1 }) } := by
    intro db league_id league hfind
    unfold get_standings
    rw [hfind]
  refine ⟨?_, ?_, ?_⟩
  · intro db league_id hfind
    unfold get_standings
    rw [hfind]
  · intro db league_id league resp hfind hok
    rw [hmain db league_id league hfind] at hok
    have hresp := Except.ok.inj hok
    subst hresp
    dsimp only
    have hproj : ∀ {β : Type} (g : LeagueStanding → β),
        (∀ (i : Nat) (t : LeagueStanding), g { t with position := (i : Int) + 1 } = g t) →
        ((((league.members.map (standing_of db)).mergeSort standings_le).enum.map
            (fun p => { p.2 with position := (p.1 : Int) + 1 })).map g)
          = ((league.members.map (standing_of db)).mergeSort standings_le).map g := by
      intro β g hg
      rw [List.map_map]
      have h1 : (g ∘ fun p : Nat × LeagueStanding =>
          { p.2 with position := (p.1 : Int) + 1 })
          = ((fun p : Nat × LeagueStanding => g p.2)) := by
        funext p
        exact hg p.1 p.2
      rw [h1]
      have h2 : (fun p : Nat × LeagueStanding => g p.2) = (g ∘ Prod.snd) := rfl
      rw [h2, ← List.map_map, List.enum_map_snd]
    refine ⟨?_, ?_, ?_, ?_⟩
    · rw [hproj (fun s => s.total_points) (fun _ _ => rfl), List.pairwise_map]
      exact (List.sorted_mergeSort standings_le_trans standings_le_total
        (league.members.map (standing_of db))).imp
        (fun h => by simpa [standings_le] using h)
    · rw [List.map_map]
      have h1 : ((fun s : LeagueStanding => s.position) ∘
          fun p : Nat × LeagueStanding => { p.2 with position := (p.1 : Int) + 1 })
          = ((fun i : Nat => (i : Int) + 1) ∘ Prod.fst) := rfl
      rw [h1, ← List.map_map, List.enum_map_fst, List.length_mergeSort,
        List.length_map]
    · rw [hproj (fun s =>
          (s.user_id, s.username, s.total_points, s.predictions_made,
           s.perfect_predictions)) (fun _ _ => rfl)]
      exact (List.mergeSort_perm (league.members.map (standing_of db))
        standings_le).map _
    · intro u v hsub hle
      rw [hproj (fun s => s.user_id) (fun _ _ => rfl)]
      have h1 : [u, v].Sublist ((league.members.map (standing_of db)).mergeSort
          standings_le) :=
        List.pair_sublist_mergeSort standings_le_trans standings_le_total
          (by simpa [standings_le] using hle) hsub
      exact h1.map (fun s : LeagueStanding => s.user_id)
  · rw [hmain c9_db 1 c9_league rfl, c9_standings_eval, c9_sorted_eval]
    decide

/-- Witness for C9: the concrete database, via the main theorem: the
not-found error at an unknown id and the assigned positions on the example
league's response. -/
theorem get_standings_spec_witness :
    get_standings c9_db 99 = Except.error "League not found"
    ∧ ([mk_standing 2 "B" 50 1 0 1, mk_standing 3 "C" 50 1 0 2,
        mk_standing 1 "A" 30 1 0 3, mk_standing 4 "D" 10 1 0 4].map
          (fun s => s.position))
        = (List.range (c9_league.members.length)).map (fun i : Nat => (i : Int) + 1) := by
  constructor
  · exact get_standings_spec.1 c9_db 99 (by decide)
  · exact (get_standings_spec.2.1 c9_db 1 c9_league
      { league_id := 1, league_name := "L",
        standings := [mk_standing 2 "B" 50 1 0 1, mk_standing 3 "C" 50 1 0 2,
          mk_standing 1 "A" 30 1 0 3, mk_standing 4 "D" 10 1 0 4] }
      (by decide)
      (by
        unfold get_standings
        rw [show get_league c9_db 1 = some c9_league from rfl]
        dsimp only
        rw [c9_standings_eval, c9_sorted_eval]
        rfl)).2.1

/-! ## C10 -/

theorem set_league_mem :
    ∀ (ls : List League) (league_id : Int) (newL l : League),
      l ∈ set_league ls league_id newL → l ∈ ls ∨ l = newL := by
  intro ls
  induction ls with
  | nil =>
    intro _ _ l h
    cases h
  | cons a rest ih =>
    intro lid newL l h
    unfold set_league at h
    by_cases ha : a.id = lid
    · rw [if_pos ha] at h
      rcases List.mem_cons.mp h with h | h
      · exact Or.inr h
      · exact Or.inl (List.mem_cons_of_mem _ h)
    · rw [if_neg ha] at h
      rcases List.mem_cons.mp h with h | h
      · exact Or.inl (h ▸ List.mem_cons_self a rest)
      · rcases ih lid newL l h with h' | h'
        · exact Or.inl (List.mem_cons_of_mem _ h')
        · exact Or.inr h'

theorem get_user_id (db : LeagueDB) (uid : Int) (u : User)
    (h : get_user db uid = some u) : u.id = uid := by
  unfold get_user at h
  have h' := List.find?_some h
  simpa using h'

theorem get_league_mem (db : LeagueDB) (lid : Int) (l : League)
    (h : get_league db lid = some l) : l ∈ db.leagues := by
  unfold get_league at h
  exact List.mem_of_find?_eq_some h

/-- C10: the league service maintains the owner-is-member invariant:
create_league adds the (existing) owner as first member and establishes the
invariant; remove_member returns False whenever the target is the league
owner and preserves the invariant; transfer_ownership fails when the new
owner is not already a member, and preserves the invariant; add_member of
an already-present member succeeds with no state change (no duplicate
membership) and preserves the invariant. -/
theorem league_service_owner_invariant :
    (∀ (db : LeagueDB) (name : String) (oid nid : Int) (owner : User),
      get_user db oid = some owner →
      (create_league db name oid nid).2.members = [owner]
      ∧ (create_league db name oid nid).2.owner_id = oid)
    ∧ (∀ (db : LeagueDB) (name : String) (oid nid : Int) (owner : User),
      get_user db oid = some owner → leagues_owner_invariant db →
      leagues_owner_invariant (create_league db name oid nid).1)
    ∧ (∀ (db : LeagueDB) (lid uid rid : Int) (league : League),
      get_league db lid = some league → league.owner_id = uid →
      remove_member db lid uid rid = Except.ok (db, false))
    ∧ (∀ (db db' : LeagueDB) (lid uid rid : Int) (b : Bool),
      remove_member db lid uid rid = Except.ok (db', b) →
      leagues_owner_invariant db → leagues_owner_invariant db')
    ∧ (∀ (db : LeagueDB) (lid noid : Int) (league : League) (new_owner : User),
      get_league db lid = some league → get_user db noid = some new_owner →
      new_owner ∉ league.members →
      transfer_ownership db lid noid = (db, false))
    ∧ (∀ (db : LeagueDB) (lid noid : Int),
      leagues_owner_invariant db →
      leagues_owner_invariant (transfer_ownership db lid noid).1)
    ∧ (∀ (db : LeagueDB) (lid uid : Int) (league : League) (user : User),
      get_league db lid = some league → get_user db uid = some user →
      user ∈ league.members →
      add_member db lid uid = (db, true))
    ∧ (∀ (db : LeagueDB) (lid uid : Int),
      leagues_owner_invariant db →
      leagues_owner_invariant (add_member db lid uid).1) := by
  refine ⟨?_, ?_, ?_, ?_, ?_, ?_, ?_, ?_⟩
  · intro db name oid nid owner hu
    unfold create_league
    rw [hu]
    exact ⟨rfl, rfl⟩
  · intro db name oid nid owner hu hinv
    unfold create_league
    rw [hu]
    intro l hl
    dsimp only at hl
    rcases List.mem_append.mp hl with h | h
    · exact hinv l h
    · rcases List.mem_cons.mp h with h | h
      · subst h
        exact ⟨owner, List.mem_cons_self _ _, get_user_id db oid owner hu⟩
      · cases h
  · intro db lid uid rid league hfind howner
    unfold remove_member
    rw [hfind]
    dsimp only
    by_cases hrb : league.owner_id ≠ rid
    · rw [if_pos hrb]
    · rw [if_neg hrb, if_pos howner]
  · intro db db' lid uid rid b hrm hinv
    unfold remove_member at hrm
    rcases hfind : get_league db lid with - | league
    · rw [hfind] at hrm
      cases hrm
    · rw [hfind] at hrm
      dsimp only at hrm
      by_cases hrb : league.owner_id ≠ rid
      · rw [if_pos hrb] at hrm
        have h1 : db = db' := congrArg Prod.fst (Except.ok.inj hrm)
        exact h1 ▸ hinv
      · rw [if_neg hrb] at hrm
        by_cases hou : league.owner_id = uid
        · rw [if_pos hou] at hrm
          have h1 : db = db' := congrArg Prod.fst (Except.ok.inj hrm)
          exact h1 ▸ hinv
        · rw [if_neg hou] at hrm
          rcases huser : get_user db uid with - | user
          · rw [huser] at hrm
            have h1 : db = db' := congrArg Prod.fst (Except.ok.inj hrm)
            exact h1 ▸ hinv
          · rw [huser] at hrm
            dsimp only at hrm
            by_cases hmem : user ∈ league.members
            · rw [if_pos hmem] at hrm
              have h1 := congrArg Prod.fst (Except.ok.inj hrm)
              dsimp only at h1
              rw [← h1]
              intro l hl
              dsimp only at hl
              rcases set_league_mem db.leagues lid _ l hl with h | h
              · exact hinv l h
              · subst h
                obtain ⟨w, hw, hwid⟩ := hinv league (get_league_mem db lid league hfind)
                have hwne : w ≠ user := by
                  intro he
                  apply hou
                  have huid := get_user_id db uid user huser
                  rw [← hwid, he]
                  exact huid
                exact ⟨w, (List.mem_erase_of_ne hwne).mpr hw, hwid⟩
            · rw [if_neg hmem] at hrm
              have h1 : db = db' := congrArg Prod.fst (Except.ok.inj hrm)
              exact h1 ▸ hinv
  · intro db lid noid league new_owner hfind huser hnm
    unfold transfer_ownership
    rw [hfind, huser]
    dsimp only
    rw [if_neg hnm]
  · intro db lid noid hinv
    unfold transfer_ownership
    rcases hfind : get_league db lid with - | league
    · exact hinv
    · rcases huser : get_user db noid with - | new_owner
      · exact hinv
      · dsimp only
        by_cases hmem : new_owner ∈ league.members
        · rw [if_pos hmem]
          intro l hl
          dsimp only at hl
          rcases set_league_mem db.leagues lid _ l hl with h | h
          · exact hinv l h
          · subst h
            exact ⟨new_owner, hmem, get_user_id db noid new_owner huser⟩
        · rw [if_neg hmem]
          exact hinv
  · intro db lid uid league user hfind huser hmem
    unfold add_member
    rw [hfind, huser]
    dsimp only
    rw [if_pos hmem]
  · intro db lid uid hinv
    unfold add_member
    rcases hfind : get_league db lid with - | league
    · exact hinv
    · rcases huser : get_user db uid with - | user
      · exact hinv
      · dsimp only
        by_cases hmem : user ∈ league.members
        · rw [if_pos hmem]
          exact hinv
        · rw [if_neg hmem]
          intro l hl
          dsimp only at hl
          rcases set_league_mem db.leagues lid _ l hl with h | h
          · exact hinv l h
          · subst h
            obtain ⟨w, hw, hwid⟩ := hinv league (get_league_mem db lid league hfind)
            exact ⟨w, List.mem_append_left _ hw, hwid⟩

/-- Witness for C10 on the concrete two-member league: owner added on
creation, owner removal refused, idempotent re-add of user 2, refused
transfer to non-member user 3, and the invariant after a transfer to
member user 2. -/
theorem league_service_owner_invariant_witness :
    (create_league c10_db "N" 1 77).2.members = [mk_user 1 "A"]
    ∧ remove_member c10_db 10 1 1 = Except.ok (c10_db, false)
    ∧ add_member c10_db 10 2 = (c10_db, true)
    ∧ transfer_ownership c10_db 10 3 = (c10_db, false)
    ∧ leagues_owner_invariant (transfer_ownership c10_db 10 2).1 := by
  refine ⟨(league_service_owner_invariant.1 c10_db "N" 1 77 (mk_user 1 "A") (by decide)).1,
    league_service_owner_invariant.2.2.1 c10_db 10 1 1 c10_league (by decide) (by decide),
    league_service_owner_invariant.2.2.2.2.2.2.1 c10_db 10 2 c10_league (mk_user 2 "B")
      (by decide) (by decide) (by decide),
    league_service_owner_invariant.2.2.2.2.1 c10_db 10 3 c10_league (mk_user 3 "E")
      (by decide) (by decide) (by decide),
    league_service_owner_invariant.2.2.2.2.2.1 c10_db 10 2 ?_⟩
  intro l hl
  have : l = c10_league := by
    rcases List.mem_cons.mp hl with h | h
    · exact h
    · cases h
  subst this
  exact ⟨mk_user 1 "A", by decide, by decide⟩

end Tippspiel
